import Mathlib

/-!
Verification of the request/retry/error-classification pipeline of the
jira-mcp-server repository (`src/jira_mcp/client/jira_client.py`), its
configuration (`src/jira_mcp/config.py`) and authentication helper
(`src/jira_mcp/utils/auth.py`), as a shallow embedding in Lean 4.

JSON values and Python dicts are modelled by the inductive `Json` below;
a Python dict is an association list preserving insertion order (Python
dicts are insertion ordered, and the dicts built by this code never hold
duplicate keys).  HTTP responses are modelled by `Response`; the remote
server's behaviour over the successive attempts of one logical call is a
`List Attempt` trace consumed left to right by the retry recursion.
-/

namespace JiraMcp

/-- A JSON value, as produced by `response.json()` in the source.  Numbers
are modelled as integers (no fractional numbers appear in any modelled
code path). -/
inductive Json : Type
  | null : Json
  | bool : Bool → Json
  | num : Int → Json
  | str : String → Json
  | arr : List Json → Json
  | obj : List (String × Json) → Json

/-- A Python dict with string keys: an insertion-ordered association list. -/
abbrev PyDict := List (String × Json)

/-- First-match lookup in an insertion-ordered dict, i.e. `d[k]` / `k in d`. -/
def dictLookup {α : Type} : List (String × α) → String → Option α
  | [], _ => none
  | (k, v) :: rest, key => if k = key then some v else dictLookup rest key

/-- Python truthiness of a JSON value (`bool(v)`). -/
def pyTruthy : Json → Bool
  | .null => false
  | .bool b => b
  | .num n => n != 0
  | .str s => s != ""
  | .arr [] => false
  | .arr (_ :: _) => true
  | .obj [] => false
  | .obj (_ :: _) => true

/-- Python `repr` of a JSON value (what `str` shows for containers).  The
quote-selection and escaping rules of Python `repr` for strings are not
modelled; the strings reaching this function in the verified scenarios
contain no quotes or escapes. -/
def pyRepr : Json → String
  | .null => "None"
  | .bool true => "True"
  | .bool false => "False"
  | .num n => toString n
  | .str s => "\x27" ++ s ++ "\x27"
  | .arr xs => "[" ++ String.intercalate ", " (xs.attach.map (fun x => pyRepr x.1)) ++ "]"
  | .obj kvs =>
      "\x7b" ++
        String.intercalate ", "
          (kvs.attach.map (fun kv => "\x27" ++ kv.1.1 ++ "\x27: " ++ pyRepr kv.1.2)) ++
      "\x7d"
decreasing_by
  · have := List.sizeOf_lt_of_mem x.2
    simp only [Json.arr.sizeOf_spec]
    omega
  · have h1 := List.sizeOf_lt_of_mem kv.2
    have h2 : sizeOf kv.1.2 < sizeOf kv.1 := by
      obtain ⟨a, b⟩ := kv.1
      simp only [Prod.mk.sizeOf_spec]
      omega
    simp only [Json.obj.sizeOf_spec]
    omega

/-- Python `str` of a JSON value: identity on strings, `repr` on the rest. -/
def pyStr : Json → String
  | .str s => s
  | j => pyRepr j

/-- Python's substring test `pat in s`, by scanning every start position.
Positions and lengths count Unicode code points, as Python's `str` does. -/
def strContainsSub (s pat : String) : Bool :=
  (List.range (s.length + 1)).any fun i =>
    (s.toList.drop i).take pat.length == pat.toList

/-- Python's `s.startswith(p)` (a code-point-wise prefix test). -/
def strStartsWith (s p : String) : Bool :=
  s.toList.take p.length == p.toList

/-! ## Configuration (`src/jira_mcp/config.py`)

`JiraConfig` carries the fields of the pydantic settings model that the
client reads.  Field validation (URL scheme check, `rstrip("/")`, bounds
on `timeout` and `max_retries`) happens at construction time in the
source and is not modelled; the theorems below quantify over arbitrary
field values, which only makes them stronger. -/

structure JiraConfig where
  url : String
  username : String
  api_token : String
  timeout : Nat
  verify_ssl : Bool
  max_retries : Nat
  personal_access_token : Option String

/-- `JiraConfig.is_cloud`: `"atlassian.net" in self.url`. -/
def is_cloud (cfg : JiraConfig) : Bool :=
  strContainsSub cfg.url "atlassian.net"

/-- `JiraConfig.use_pat`: `self.personal_access_token is not None`. -/
def use_pat (cfg : JiraConfig) : Bool :=
  cfg.personal_access_token.isSome

/-! ## Authentication headers (`src/jira_mcp/utils/auth.py`) -/

/-- UTF-8 encoding of one character (`str.encode`), as a list of byte
values. -/
def utf8Char (c : Char) : List Nat :=
  let n := c.toNat
  if n < 0x80 then [n]
  else if n < 0x800 then [0xC0 + n / 64, 0x80 + n % 64]
  else if n < 0x10000 then [0xE0 + n / 4096, 0x80 + n / 64 % 64, 0x80 + n % 64]
  else [0xF0 + n / 262144, 0x80 + n / 4096 % 64, 0x80 + n / 64 % 64, 0x80 + n % 64]

/-- UTF-8 encoding of a string (`s.encode()`), as a list of byte values. -/
def utf8Encode (s : String) : List Nat :=
  (s.toList.map utf8Char).flatten

/-- The standard base64 alphabet. -/
def base64Alphabet : List Char :=
  "ABCDEFGHIJKLMNOPQRSTUVWXYZabcdefghijklmnopqrstuvwxyz0123456789+/".toList

/-- The base64 digit for a 6-bit value. -/
def b64digit (n : Nat) : Char :=
  base64Alphabet.getD n 'A'

/-- `base64.b64encode` over a byte list, with `=` padding. -/
def base64encode : List Nat → String
  | [] => ""
  | [a] =>
      String.mk [b64digit (a / 4), b64digit (a % 4 * 16), '=', '=']
  | [a, b] =>
      String.mk [b64digit (a / 4), b64digit (a % 4 * 16 + b / 16),
                 b64digit (b % 16 * 4), '=']
  | a :: b :: c :: rest =>
      String.mk [b64digit (a / 4), b64digit (a % 4 * 16 + b / 16),
                 b64digit (b % 16 * 4 + c / 64), b64digit (c % 64)] ++
      base64encode rest

/-- `get_auth_headers`: the base headers plus an `Authorization` entry,
Bearer when a personal access token is configured, else Basic with the
base64 of `username:api_token`. -/
def get_auth_headers (cfg : JiraConfig) : List (String × String) :=
  let headers := [("Accept", "application/json"),
                  ("Content-Type", "application/json")]
  match cfg.personal_access_token with
  | some tok => headers ++ [("Authorization", "Bearer " ++ tok)]
  | none =>
      let credentials := cfg.username ++ ":" ++ cfg.api_token
      let encoded := base64encode (utf8Encode credentials)
      headers ++ [("Authorization", "Basic " ++ encoded)]

/-! ## Endpoint resolution (`JiraClient._request`, lines 129-138) -/

/-- The endpoint-to-URL resolution step at the top of `_request`:
a `"http"`-prefixed endpoint is used verbatim, a `"/rest/"`-prefixed
endpoint is used verbatim, anything else gets the v2 REST base
prepended. -/
def resolve_endpoint (endpoint : String) : String :=
  if strStartsWith endpoint "http" then endpoint
  else if strStartsWith endpoint "/rest/" then endpoint
  else "/rest/api/2" ++ endpoint

/-! ## Search request shaping (`JiraClient.search_issues`) -/

/-- The hard-coded default field list of `search_issues`. -/
def default_fields : List String :=
  ["summary", "status", "priority", "issuetype", "assignee",
   "reporter", "created", "updated", "description", "labels",
   "components", "project", "resolution", "resolutiondate"]

/-- Python `fields if fields else default_fields` (`None` and the empty
list are falsy). -/
def fieldsOrDefault : Option (List String) → List String
  | some (f :: fs) => f :: fs
  | _ => default_fields

/-- `search_issues` up to its delegation to `_request`: returns the
endpoint and the query-parameter dict it passes on. -/
def search_issues_request (cfg : JiraConfig) (jql : String)
    (fields : Option (List String)) (max_results start_at : Int) :
    String × PyDict :=
  let params : PyDict :=
    [("jql", .str jql), ("maxResults", .num max_results),
     ("startAt", .num start_at)]
  let params :=
    if is_cloud cfg then
      params ++ [("fields", .str (String.intercalate ","
        (fieldsOrDefault fields)))]
    else
      match fields with
      | some (f :: fs) =>
          params ++ [("fields", .str (String.intercalate "," (f :: fs)))]
      | _ => params
  let endpoint := if is_cloud cfg then "/rest/api/3/search/jql" else "/search"
  (endpoint, params)

/-! ## The request pipeline (`JiraClient._request`)

A `Response` models one `httpx.Response`: its status code, its raw body
(`response.content`, whose only inspected property is emptiness), and
`json`, the parse of the body as a JSON object — `none` both when the
body is not valid JSON (then `response.json()` raises and `_safe_json`
returns `None`) and by the typing of `_safe_json` (`Optional[dict]`)
when it is valid JSON that is not an object.  The error bodies and
success payloads of every modelled path are objects, matching the
source's `-> dict[str, Any]` annotations. -/

structure Response where
  status : Nat
  content : String
  json : Option PyDict

/-- One attempt's outcome as seen by `_request`: a response, or one of the
two transport-level exception classes it catches. -/
inductive Attempt : Type
  | resp : Response → Attempt
  | timeout : Attempt
  | netError : Attempt

/-- The kinds of the `JiraAPIError` exception hierarchy: `generic` is the
base class `JiraAPIError` raised directly, the others its subclasses. -/
inductive ApiKind : Type
  | generic | authentication | notFound | permission | validation | rateLimited
deriving DecidableEq

/-- A raised `JiraAPIError`: its message and the `status_code` /
`response_data` attributes set by `_request`. -/
structure ApiError where
  kind : ApiKind
  message : String
  status_code : Option Nat
  response_data : Option PyDict

/-- Everything any modelled client operation can raise. -/
inductive RaisedError : Type
  | api : ApiError → RaisedError
  | httpStatusError : Nat → RaisedError
  | fileNotFound : String → RaisedError
  | jsonDecodeError : RaisedError
  | traceExhausted : RaisedError

/-- `JiraClient._safe_json`: the parsed JSON body, or `None` when parsing
fails (the `except` swallows the parse error). -/
def safe_json (r : Response) : Option PyDict :=
  r.json

/-- Truthy presence of a key: `k in d and d[k]`. -/
def keyTruthy (d : PyDict) (k : String) : Bool :=
  match dictLookup d k with
  | some v => pyTruthy v
  | none => false

/-- The value of a key known to be present. -/
def getVal (d : PyDict) (k : String) : Json :=
  (dictLookup d k).getD .null

/-- Python `", ".join(v)` for the `errorMessages` value: joins a list of
strings; a string is iterable character by character.  Non-string list
elements and non-iterable values raise `TypeError` in the source; those
shapes never occur in the verified scenarios and are rendered with
`str` here as a placeholder. -/
def joinCommaSpace : Json → String
  | .arr xs =>
      String.intercalate ", "
        (xs.map fun j => match j with | .str s => s | j2 => pyStr j2)
  | .str s => String.intercalate ", " (s.toList.map String.singleton)
  | j => pyStr j

/-- `", ".join(f"{k}: {v}" for k, v in errors.items())`; `.items()` on a
non-dict raises `TypeError` in the source (placeholder `str` here). -/
def joinErrorsDict : Json → String
  | .obj kvs =>
      String.intercalate ", " (kvs.map fun kv => kv.1 ++ ": " ++ pyStr kv.2)
  | j => pyStr j

/-- `JiraClient._extract_error_message`, the 400-body message ladder. -/
def extract_error_message : Option PyDict → String
  | none => "Unknown error"
  | some d =>
    match d with
    | [] => "Unknown error"
    | _ :: _ =>
      if keyTruthy d "errorMessages" then joinCommaSpace (getVal d "errorMessages")
      else if keyTruthy d "errors" then joinErrorsDict (getVal d "errors")
      else if (dictLookup d "message").isSome then pyStr (getVal d "message")
      else pyStr (.obj d)

/-- `JiraClient._backoff`: the delay slept before a retry. -/
def backoff (retry_count : Nat) : Nat :=
  min (2 ^ retry_count) 30

/-- What `_request` does with one attempt, before consulting the retry
budget. -/
inductive StepResult : Type
  | success : PyDict → StepResult
  | failure : RaisedError → StepResult
  | retryOrFail : RaisedError → StepResult

/-- The 200/201 arm `response.json() if response.content else {}`;
`response.json()` on a non-empty unparsable body raises a JSON decode
error (a `ValueError`, outside the `JiraAPIError` hierarchy). -/
def jsonSuccess (r : Response) : StepResult :=
  if r.content = "" then .success []
  else
    match r.json with
    | some d => .success d
    | none => .failure .jsonDecodeError

/-- The status-code ladder of `_request` (source lines 158-238) applied to
one attempt: each arm either succeeds, fails terminally, or is retryable
with the given budget-exhausted terminal error.  `url` is the resolved
URL (used in the 404 message), `retry_count` the current attempt counter
(used in the timeout/network messages). -/
def classify (url : String) (retry_count : Nat) : Attempt → StepResult
  | .resp r =>
    if r.status = 200 then jsonSuccess r
    else if r.status = 201 then jsonSuccess r
    else if r.status = 204 then .success []
    else if r.status = 401 then
      .failure (.api ⟨.authentication, "Authentication failed. Check credentials.",
        some 401, safe_json r⟩)
    else if r.status = 403 then
      .failure (.api ⟨.permission, "Permission denied. Check user permissions.",
        some 403, safe_json r⟩)
    else if r.status = 404 then
      .failure (.api ⟨.notFound, "Resource not found: " ++ url,
        some 404, safe_json r⟩)
    else if r.status = 400 then
      .failure (.api ⟨.validation,
        "Validation error: " ++ extract_error_message (safe_json r),
        some 400, safe_json r⟩)
    else if r.status = 429 then
      .retryOrFail (.api ⟨.rateLimited, "Rate limit exceeded",
        some 429, safe_json r⟩)
    else if 500 ≤ r.status then
      .retryOrFail (.api ⟨.generic, "Server error: " ++ toString r.status,
        some r.status, safe_json r⟩)
    else
      .failure (.api ⟨.generic, "Unexpected status code: " ++ toString r.status,
        some r.status, safe_json r⟩)
  | .timeout =>
      .retryOrFail (.api ⟨.generic,
        "Request timeout after " ++ toString (retry_count + 1) ++ " attempts",
        none, none⟩)
  | .netError =>
      .retryOrFail (.api ⟨.generic,
        "Network error after " ++ toString (retry_count + 1) ++ " attempts",
        none, none⟩)

/-- The observable outcome of one `_request` call: the returned dict or
raised error, the sequence of backoff delays slept, and the number of
HTTP attempts issued. -/
structure ReqOutcome where
  result : Except RaisedError PyDict
  delays : List Nat
  attempts : Nat

/-- The retry recursion of `_request` over a trace of attempt outcomes.
In the source the recursive call passes `method`, `endpoint`, `params`,
`json_data` and `files` through unchanged — every retry reissues the
identical request — so the model fixes them outside the recursion,
keeping the resolved `url` (the only one the modelled arms inspect) and
the retry budget `cfg.max_retries` explicit.  `traceExhausted` is a
modelling artifact for a trace shorter than the attempts the code would
make; every theorem below supplies enough trace. -/
def run_request (cfg : JiraConfig) (url : String) :
    Nat → List Attempt → ReqOutcome
  | _, [] => ⟨.error .traceExhausted, [], 0⟩
  | retry_count, a :: rest =>
    match classify url retry_count a with
    | .success d => ⟨.ok d, [], 1⟩
    | .failure e => ⟨.error e, [], 1⟩
    | .retryOrFail e =>
      if retry_count < cfg.max_retries then
        let o := run_request cfg url (retry_count + 1) rest
        ⟨o.result, backoff retry_count :: o.delays, o.attempts + 1⟩
      else ⟨.error e, [], 1⟩

/-! ## Request kwargs preparation (`_request`, lines 143-154) -/

/-- One entry of the `files` dict: the tuple
`(file_name, file_object, content_type)` minus the unobservable file
object. -/
structure FilePart where
  filename : String
  mime : String

/-- The keyword arguments `_request` hands to `httpx`. -/
structure RequestKwargs where
  params : Option PyDict
  headers : Option (List (String × String))
  files : Option (List (String × FilePart))
  dataBody : Option PyDict
  jsonBody : Option PyDict

/-- Python truthiness of an optional dict argument. -/
def pyTruthyOpt {α : Type} : Option (List α) → Bool
  | none => false
  | some [] => false
  | some (_ :: _) => true

/-- The kwargs-building block of `_request`: builds a fresh header dict
with `Content-Type` removed when a file payload is present.  The pair's
second component is the client's stored header mapping after the block
runs — the source only reads `self.headers` (the dict comprehension
builds a new dict), so it is returned unchanged. -/
def prepare_kwargs (self_headers : List (String × String))
    (params : Option PyDict) (json_data : Option PyDict)
    (files : Option (List (String × FilePart))) :
    RequestKwargs × List (String × String) :=
  let kwargs : RequestKwargs :=
    { params := params, headers := none, files := none,
      dataBody := none, jsonBody := none }
  let kwargs :=
    if pyTruthyOpt files then
      let headers := self_headers.filter fun kv => kv.1 ≠ "Content-Type"
      let k := { kwargs with headers := some headers, files := files }
      if pyTruthyOpt json_data then { k with dataBody := json_data } else k
    else if pyTruthyOpt json_data then { kwargs with jsonBody := json_data }
    else kwargs
  (kwargs, self_headers)

/-! ## Attachment operations -/

/-- The special header set `add_attachment` sends (anti-CSRF marker,
JSON accept, and the stored `Authorization` header when present). -/
def attachment_headers (self_headers : List (String × String)) :
    List (String × String) :=
  let headers := [("X-Atlassian-Token", "no-check"),
                  ("Accept", "application/json")]
  match dictLookup self_headers "Authorization" with
  | some v => headers ++ [("Authorization", v)]
  | none => headers

/-- The observable outcome of one `add_attachment` call: result, number
of HTTP requests issued, and backoff delays slept. -/
structure AttachmentCall where
  result : Except RaisedError PyDict
  requests_made : Nat
  delays : List Nat

/-- `JiraClient.add_attachment`: raises `FileNotFoundError` (not a
`JiraAPIError`) before any request when the local file is missing;
otherwise issues exactly one bare `client.post` — not `_request`, so no
retry and no backoff — returning the parsed body on status 200 and
raising a plain `JiraAPIError` on every other status.  The local
filesystem is abstracted as the list of existing paths. -/
def add_attachment (existing_files : List String)
    (_key file_path : String) (r : Response) : AttachmentCall :=
  if file_path ∉ existing_files then
    ⟨.error (.fileNotFound ("File not found: " ++ file_path)), 0, []⟩
  else if r.status = 200 then
    match r.json with
    | some d => ⟨.ok d, 1, []⟩
    | none => ⟨.error .jsonDecodeError, 1, []⟩
  else
    ⟨.error (.api ⟨.generic,
      "Failed to upload attachment: " ++ toString r.status,
      some r.status, safe_json r⟩), 1, []⟩

/-! ## Helper lemmas -/

/-- A response status that `_request` treats as retryable. -/
def retryable (r : Response) : Prop :=
  r.status = 429 ∨ 500 ≤ r.status

instance (r : Response) : Decidable (retryable r) := by
  unfold retryable; infer_instance

/-- The budget-exhausted terminal error for a retryable response. -/
def terminalRetryError (r : Response) : RaisedError :=
  if r.status = 429 then
    .api ⟨.rateLimited, "Rate limit exceeded", some 429, safe_json r⟩
  else
    .api ⟨.generic, "Server error: " ++ toString r.status,
      some r.status, safe_json r⟩

theorem classify_retryable (url : String) (c : Nat) (r : Response)
    (h : retryable r) :
    classify url c (.resp r) = .retryOrFail (terminalRetryError r) := by
  rcases h with h | h
  · simp [classify, terminalRetryError, h]
  · have h200 : r.status ≠ 200 := by omega
    have h201 : r.status ≠ 201 := by omega
    have h204 : r.status ≠ 204 := by omega
    have h401 : r.status ≠ 401 := by omega
    have h403 : r.status ≠ 403 := by omega
    have h404 : r.status ≠ 404 := by omega
    have h400 : r.status ≠ 400 := by omega
    have h429 : r.status ≠ 429 := by omega
    simp [classify, terminalRetryError, h200, h201, h204, h401, h403, h404,
      h400, h429, h]

/-- Running the pipeline through a block of retryable responses while the
budget lasts: each one costs one attempt and one backoff delay and the
recursion continues on the rest of the trace with the counter advanced. -/
theorem run_request_retryable_block (cfg : JiraConfig) (url : String)
    (rs : List Response) :
    ∀ (c : Nat) (t : List Attempt), (∀ r ∈ rs, retryable r) →
    c + rs.length ≤ cfg.max_retries →
    run_request cfg url c (rs.map Attempt.resp ++ t) =
      ⟨(run_request cfg url (c + rs.length) t).result,
       (List.range' c rs.length).map backoff ++
         (run_request cfg url (c + rs.length) t).delays,
       (run_request cfg url (c + rs.length) t).attempts + rs.length⟩ := by
  induction rs with
  | nil => intro c t _ _; simp [List.range'_zero]
  | cons r rs ih =>
    intro c t hall hle
    have hr : retryable r := hall r (List.mem_cons_self r rs)
    have hc : c < cfg.max_retries := by
      simp only [List.length_cons] at hle; omega
    have hall2 : ∀ x ∈ rs, retryable x :=
      fun x hx => hall x (List.mem_cons_of_mem r hx)
    have hle2 : (c + 1) + rs.length ≤ cfg.max_retries := by
      simp only [List.length_cons] at hle; omega
    rw [List.map_cons, List.cons_append, run_request,
      classify_retryable url c r hr]
    simp only [ih (c + 1) t hall2 hle2, if_pos hc]
    have harith : c + 1 + rs.length = c + (rs.length + 1) := by omega
    simp only [List.length_cons, List.range'_succ c rs.length 1]
    simp [harith]
    omega

/-- C1: with `max_retries = N`, a run of `N + 1` responses whose statuses
are all 429 or ≥ 500 yields a terminal error after exactly `N` retries
(`N + 1` attempts), sleeping `min(2^k, 30)` before retry `k`; and if a
success-status response (200/201 with its payload, or 204 with the empty
dict) arrives after at most `N` retryable responses, the call returns its
payload with no error raised. -/
theorem c1_retry_and_success_policy (cfg : JiraConfig) (url : String) :
    (∀ (rs : List Response) (rlast : Response) (rest : List Attempt),
       rs.length = cfg.max_retries → (∀ r ∈ rs, retryable r) →
       retryable rlast →
       run_request cfg url 0 ((rs ++ [rlast]).map Attempt.resp ++ rest) =
         ⟨.error (terminalRetryError rlast),
          (List.range cfg.max_retries).map backoff, cfg.max_retries + 1⟩)
  ∧ (∀ (rs : List Response) (s : Response) (d : PyDict) (rest : List Attempt),
       rs.length ≤ cfg.max_retries → (∀ r ∈ rs, retryable r) →
       (s.status = 200 ∨ s.status = 201) → s.content ≠ "" → s.json = some d →
       run_request cfg url 0 (rs.map Attempt.resp ++ Attempt.resp s :: rest) =
         ⟨.ok d, (List.range rs.length).map backoff, rs.length + 1⟩)
  ∧ (∀ (rs : List Response) (s : Response) (rest : List Attempt),
       rs.length ≤ cfg.max_retries → (∀ r ∈ rs, retryable r) →
       s.status = 204 →
       run_request cfg url 0 (rs.map Attempt.resp ++ Attempt.resp s :: rest) =
         ⟨.ok [], (List.range rs.length).map backoff, rs.length + 1⟩) := by
  refine ⟨?_, ?_, ?_⟩
  · intro rs rlast rest hlen hall hlast
    have hsplit : (rs ++ [rlast]).map Attempt.resp ++ rest =
        rs.map Attempt.resp ++ (Attempt.resp rlast :: rest) := by simp
    rw [hsplit,
      run_request_retryable_block cfg url rs 0 (Attempt.resp rlast :: rest)
        hall (by omega)]
    rw [run_request, classify_retryable url (0 + rs.length) rlast hlast]
    simp only [if_neg (by omega : ¬ 0 + rs.length < cfg.max_retries)]
    rw [List.range_eq_range']
    simp [hlen]
    omega
  · intro rs s d rest hlen hall hs hc hj
    rw [run_request_retryable_block cfg url rs 0 (Attempt.resp s :: rest)
        hall (by omega)]
    have hclass : classify url (0 + rs.length) (Attempt.resp s) =
        .success d := by
      rcases hs with hs | hs <;> simp [classify, hs, jsonSuccess, hc, hj]
    rw [run_request, hclass]
    rw [List.range_eq_range']
    simp
    omega
  · intro rs s rest hlen hall hs
    rw [run_request_retryable_block cfg url rs 0 (Attempt.resp s :: rest)
        hall (by omega)]
    have hclass : classify url (0 + rs.length) (Attempt.resp s) =
        .success [] := by
      simp [classify, hs]
    rw [run_request, hclass]
    rw [List.range_eq_range']
    simp
    omega

/-- Witness for C1: with `max_retries = 3`, four straight retryable
responses exhaust the budget after 3 retries with delays 1, 2, 4; and
three 500s followed by a 200 return the 200 payload. -/
theorem c1_retry_and_success_policy_witness :
    (run_request ⟨"https://x.atlassian.net", "user", "tok", 30, true, 3, none⟩
       "/rest/api/2/issue/X" 0
       ((([⟨500, "", none⟩, ⟨500, "", none⟩, ⟨500, "", none⟩] : List Response) ++
          ([⟨503, "", none⟩] : List Response)).map Attempt.resp ++ []) =
      ⟨.error (terminalRetryError ⟨503, "", none⟩),
       (List.range 3).map backoff, 3 + 1⟩)
  ∧ (run_request ⟨"https://x.atlassian.net", "user", "tok", 30, true, 3, none⟩
       "/rest/api/2/issue/X" 0
       (([⟨500, "", none⟩, ⟨500, "", none⟩, ⟨500, "", none⟩] :
          List Response).map Attempt.resp ++
          Attempt.resp ⟨200, "body", some [("ok", .bool true)]⟩ :: []) =
      ⟨.ok [("ok", .bool true)], (List.range 3).map backoff, 3 + 1⟩)
  ∧ (List.range 3).map backoff = [1, 2, 4] := by
  refine ⟨?_, ?_, by decide⟩
  · exact (c1_retry_and_success_policy
      ⟨"https://x.atlassian.net", "user", "tok", 30, true, 3, none⟩
      "/rest/api/2/issue/X").1
      [⟨500, "", none⟩, ⟨500, "", none⟩, ⟨500, "", none⟩] ⟨503, "", none⟩ []
      rfl (by decide) (by decide)
  · exact (c1_retry_and_success_policy
      ⟨"https://x.atlassian.net", "user", "tok", 30, true, 3, none⟩
      "/rest/api/2/issue/X").2.1
      [⟨500, "", none⟩, ⟨500, "", none⟩, ⟨500, "", none⟩]
      ⟨200, "body", some [("ok", .bool true)]⟩ [("ok", .bool true)] []
      (by decide) (by decide) (Or.inl rfl) (by decide) rfl

/-- C7: a 200 or 201 response with a non-empty body returns its parsed
JSON; with an empty body it returns the empty dict; a 204 returns the
empty dict regardless of body content.  No error is raised and no retry
happens in any of these cases. -/
theorem c7_success_body_handling (cfg : JiraConfig) (url : String) (c : Nat)
    (r : Response) (rest : List Attempt) :
    (∀ d, (r.status = 200 ∨ r.status = 201) → r.content ≠ "" →
       r.json = some d →
       run_request cfg url c (.resp r :: rest) = ⟨.ok d, [], 1⟩)
  ∧ ((r.status = 200 ∨ r.status = 201) → r.content = "" →
       run_request cfg url c (.resp r :: rest) = ⟨.ok [], [], 1⟩)
  ∧ (r.status = 204 →
       run_request cfg url c (.resp r :: rest) = ⟨.ok [], [], 1⟩) := by
  refine ⟨?_, ?_, ?_⟩
  · intro d hs hc hj
    have hclass : classify url c (.resp r) = .success d := by
      rcases hs with hs | hs <;> simp [classify, hs, jsonSuccess, hc, hj]
    rw [run_request, hclass]
  · intro hs hc
    have hclass : classify url c (.resp r) = .success [] := by
      rcases hs with hs | hs <;> simp [classify, hs, jsonSuccess, hc]
    rw [run_request, hclass]
  · intro hs
    have hclass : classify url c (.resp r) = .success [] := by
      simp [classify, hs]
    rw [run_request, hclass]

/-- Witness for C7: a 200 with a body returns the parsed dict, a 201 with
an empty body and a 204 with a body both return the empty dict. -/
theorem c7_success_body_handling_witness :
    (run_request ⟨"https://x.atlassian.net", "user", "tok", 30, true, 3, none⟩
       "/rest/api/2/issue/X" 0
       (.resp ⟨200, "body", some [("id", .str "1")]⟩ :: []) =
      ⟨.ok [("id", .str "1")], [], 1⟩)
  ∧ (run_request ⟨"https://x.atlassian.net", "user", "tok", 30, true, 3, none⟩
       "/rest/api/2/issue/X" 0 (.resp ⟨201, "", none⟩ :: []) =
      ⟨.ok [], [], 1⟩)
  ∧ (run_request ⟨"https://x.atlassian.net", "user", "tok", 30, true, 3, none⟩
       "/rest/api/2/issue/X" 0 (.resp ⟨204, "ignored", some [("x", .null)]⟩ :: []) =
      ⟨.ok [], [], 1⟩) := by
  refine ⟨?_, ?_, ?_⟩
  · exact (c7_success_body_handling
      ⟨"https://x.atlassian.net", "user", "tok", 30, true, 3, none⟩
      "/rest/api/2/issue/X" 0 ⟨200, "body", some [("id", .str "1")]⟩ []).1
      [("id", .str "1")] (Or.inl rfl) (by decide) rfl
  · exact (c7_success_body_handling
      ⟨"https://x.atlassian.net", "user", "tok", 30, true, 3, none⟩
      "/rest/api/2/issue/X" 0 ⟨201, "", none⟩ []).2.1 (Or.inr rfl) rfl
  · exact (c7_success_body_handling
      ⟨"https://x.atlassian.net", "user", "tok", 30, true, 3, none⟩
      "/rest/api/2/issue/X" 0 ⟨204, "ignored", some [("x", .null)]⟩ []).2.2 rfl

theorem strStartsWith_iff (s p : String) :
    strStartsWith s p = true ↔ p.toList <+: s.toList := by
  unfold strStartsWith
  rw [beq_iff_eq, List.prefix_iff_eq_take]
  have hlen : p.toList.length = p.length := rfl
  rw [hlen]
  exact eq_comm

/-- The endpoint test of claim C3, following the spec's words: the
endpoint starts with an absolute `http://` or `https://` scheme. -/
def absScheme_spec (e : String) : Bool :=
  strStartsWith e "http://" || strStartsWith e "https://"

/-- Counterexample for C3: `"httpz"` starts with neither an absolute
http/https scheme nor `/rest/`, so the claim demands the default REST
root be prepended — but the source tests the four-character prefix
`"http"` and uses `"httpz"` verbatim. -/
theorem c3_endpoint_resolution_counterexample :
    absScheme_spec "httpz" = false
  ∧ strStartsWith "httpz" "/rest/" = false
  ∧ resolve_endpoint "httpz" = "httpz"
  ∧ resolve_endpoint "httpz" ≠ "/rest/api/2" ++ "httpz" := by
  exact ⟨by decide, by decide, by decide, by decide⟩

/-- C3 as amended: endpoint resolution is a pure function of the endpoint
string — an endpoint starting with the literal prefix `"http"` (which
covers every absolute http/https URL) is used verbatim, one starting
with `"/rest/"` is used verbatim, and every other endpoint resolves to
the default REST root `"/rest/api/2"` concatenated with the endpoint. -/
theorem c3_endpoint_resolution_amended (e : String) :
    ("http".toList <+: e.toList → resolve_endpoint e = e)
  ∧ (¬ "http".toList <+: e.toList → "/rest/".toList <+: e.toList →
       resolve_endpoint e = e)
  ∧ (¬ "http".toList <+: e.toList → ¬ "/rest/".toList <+: e.toList →
       resolve_endpoint e = "/rest/api/2" ++ e) := by
  refine ⟨?_, ?_, ?_⟩
  · intro h
    have hb : strStartsWith e "http" = true := (strStartsWith_iff e "http").mpr h
    simp [resolve_endpoint, hb]
  · intro h1 h2
    have hb1 : ¬ strStartsWith e "http" = true :=
      fun hh => h1 ((strStartsWith_iff e "http").mp hh)
    have hb2 : strStartsWith e "/rest/" = true :=
      (strStartsWith_iff e "/rest/").mpr h2
    simp [resolve_endpoint, hb1, hb2]
  · intro h1 h2
    have hb1 : ¬ strStartsWith e "http" = true :=
      fun hh => h1 ((strStartsWith_iff e "http").mp hh)
    have hb2 : ¬ strStartsWith e "/rest/" = true :=
      fun hh => h2 ((strStartsWith_iff e "/rest/").mp hh)
    simp [resolve_endpoint, hb1, hb2]

/-- Witness for C3's amended theorem: one endpoint of each of the three
families. -/
theorem c3_endpoint_resolution_amended_witness :
    resolve_endpoint "http://host/a" = "http://host/a"
  ∧ resolve_endpoint "/rest/agile/1.0/board" = "/rest/agile/1.0/board"
  ∧ resolve_endpoint "/issue/PROJ-1" = "/rest/api/2" ++ "/issue/PROJ-1" := by
  exact ⟨(c3_endpoint_resolution_amended "http://host/a").1 (by decide),
         (c3_endpoint_resolution_amended "/rest/agile/1.0/board").2.1
           (by decide) (by decide),
         (c3_endpoint_resolution_amended "/issue/PROJ-1").2.2
           (by decide) (by decide)⟩

/-- Counterexample for C2: the fixed default field list that a cloud
search with no fields argument sends has 14 entries, not 13 as the claim
states. -/
theorem c2_search_field_defaults_counterexample :
    dictLookup (search_issues_request
        ⟨"https://x.atlassian.net", "user", "tok", 30, true, 3, none⟩
        "project = X" none 50 0).2 "fields" =
      some (.str (String.intercalate "," default_fields))
  ∧ default_fields.length = 14
  ∧ default_fields.length ≠ 13 := by
  exact ⟨rfl, rfl, by decide⟩

/-- C2 as amended: a search on a cloud instance with no fields argument
sends exactly the fixed 14-field default field list and targets the
next-generation search path (used verbatim by endpoint resolution); a
search on a self-hosted instance with no fields argument omits a fields
key entirely and targets the legacy search path. -/
theorem c2_search_field_defaults_amended (cfg : JiraConfig) (jql : String)
    (max_results start_at : Int) :
    (is_cloud cfg = true →
       (search_issues_request cfg jql none max_results start_at).2 =
         [("jql", .str jql), ("maxResults", .num max_results),
          ("startAt", .num start_at),
          ("fields", .str (String.intercalate "," default_fields))]
       ∧ default_fields.length = 14
       ∧ (search_issues_request cfg jql none max_results start_at).1 =
           "/rest/api/3/search/jql"
       ∧ resolve_endpoint "/rest/api/3/search/jql" = "/rest/api/3/search/jql")
  ∧ (is_cloud cfg = false →
       (search_issues_request cfg jql none max_results start_at).2 =
         [("jql", .str jql), ("maxResults", .num max_results),
          ("startAt", .num start_at)]
       ∧ dictLookup (search_issues_request cfg jql none max_results
           start_at).2 "fields" = none
       ∧ (search_issues_request cfg jql none max_results start_at).1 =
           "/search"
       ∧ resolve_endpoint "/search" = "/rest/api/2/search") := by
  constructor
  · intro hc
    refine ⟨?_, rfl, ?_, by decide⟩ <;>
      simp [search_issues_request, hc, fieldsOrDefault]
  · intro hc
    refine ⟨?_, ?_, ?_, by decide⟩ <;>
      simp [search_issues_request, hc, dictLookup]

/-- Witness for C2's amended theorem: a cloud configuration and a
self-hosted configuration, both searching with no fields argument. -/
theorem c2_search_field_defaults_amended_witness :
    ((search_issues_request
        ⟨"https://x.atlassian.net", "user", "tok", 30, true, 3, none⟩
        "project = X" none 50 0).2 =
       [("jql", .str "project = X"), ("maxResults", .num 50),
        ("startAt", .num 0),
        ("fields", .str (String.intercalate "," default_fields))]
     ∧ default_fields.length = 14
     ∧ (search_issues_request
          ⟨"https://x.atlassian.net", "user", "tok", 30, true, 3, none⟩
          "project = X" none 50 0).1 = "/rest/api/3/search/jql"
     ∧ resolve_endpoint "/rest/api/3/search/jql" = "/rest/api/3/search/jql")
  ∧ ((search_issues_request
        ⟨"https://jira.example.com", "user", "tok", 30, true, 3, none⟩
        "project = X" none 50 0).2 =
       [("jql", .str "project = X"), ("maxResults", .num 50),
        ("startAt", .num 0)]
     ∧ dictLookup (search_issues_request
          ⟨"https://jira.example.com", "user", "tok", 30, true, 3, none⟩
          "project = X" none 50 0).2 "fields" = none
     ∧ (search_issues_request
          ⟨"https://jira.example.com", "user", "tok", 30, true, 3, none⟩
          "project = X" none 50 0).1 = "/search"
     ∧ resolve_endpoint "/search" = "/rest/api/2/search") := by
  exact ⟨(c2_search_field_defaults_amended
            ⟨"https://x.atlassian.net", "user", "tok", 30, true, 3, none⟩
            "project = X" 50 0).1 (by decide),
         (c2_search_field_defaults_amended
            ⟨"https://jira.example.com", "user", "tok", 30, true, 3, none⟩
            "project = X" 50 0).2 (by decide)⟩

theorem strContainsSub_iff (s pat : String) :
    strContainsSub s pat = true ↔ pat.toList <:+: s.toList := by
  unfold strContainsSub
  rw [List.any_eq_true]
  constructor
  · rintro ⟨i, _, hEq⟩
    rw [beq_iff_eq] at hEq
    rw [← hEq]
    exact ((List.take_prefix _ _).isInfix).trans
      ((List.drop_suffix i s.toList).isInfix)
  · rintro ⟨t, u, h⟩
    refine ⟨t.length, ?_, ?_⟩
    · rw [List.mem_range]
      have hlen : s.toList.length = s.length := rfl
      have := congrArg List.length h
      simp at this
      omega
    · rw [beq_iff_eq, ← h, List.append_assoc, List.drop_left]
      have hp : pat.toList.length = pat.length := rfl
      rw [← hp, List.take_left]

/-- The host component of a URL per claim C6, following the spec's words:
what stands between the scheme separator and the next slash. -/
def urlHost_spec (url : String) : String :=
  let after :=
    if strStartsWith url "https://" then url.toList.drop 8
    else if strStartsWith url "http://" then url.toList.drop 7
    else url.toList
  String.mk (after.takeWhile fun ch => ch ≠ '/')

/-- An atlassian.net host per claim C6, following the spec's words: the
host is `atlassian.net` itself or one of its subdomains. -/
def atlassianHost_spec (host : String) : Bool :=
  host == "atlassian.net" ||
    host.toList.drop (host.length - ".atlassian.net".length) ==
      ".atlassian.net".toList

/-- Counterexample for C6: a base URL whose host component is
`example.com` — not an atlassian.net host — is still classified as a
cloud instance, because the source tests whether `"atlassian.net"`
occurs anywhere in the whole URL (`"atlassian.net" in self.url`), not in
its host. -/
theorem c6_is_cloud_counterexample :
    is_cloud ⟨"https://example.com/wiki/atlassian.net", "user", "tok",
      30, true, 3, none⟩ = true
  ∧ urlHost_spec "https://example.com/wiki/atlassian.net" = "example.com"
  ∧ atlassianHost_spec "example.com" = false := by
  exact ⟨by decide, by decide, by decide⟩

/-- C6 as amended: the client is classified as a cloud instance exactly
when the string `atlassian.net` occurs as a substring anywhere in the
configured base URL (a superset of the URLs whose host is an
atlassian.net host). -/
theorem c6_is_cloud_amended (cfg : JiraConfig) :
    is_cloud cfg = true ↔ "atlassian.net".toList <:+: cfg.url.toList :=
  strContainsSub_iff cfg.url "atlassian.net"

/-- C8: with a personal access token configured the Authorization header
is `Bearer <token>`; with username and api_token and no personal access
token it is `Basic <b>`, where `<b>` is the base64 encoding of the UTF-8
bytes of `username:api_token`. -/
theorem c8_auth_headers (cfg : JiraConfig) :
    (∀ tok, cfg.personal_access_token = some tok →
       dictLookup (get_auth_headers cfg) "Authorization" =
         some ("Bearer " ++ tok))
  ∧ (cfg.personal_access_token = none →
       dictLookup (get_auth_headers cfg) "Authorization" =
         some ("Basic " ++
           base64encode (utf8Encode (cfg.username ++ ":" ++ cfg.api_token)))) := by
  constructor
  · intro tok htok
    simp [get_auth_headers, htok, dictLookup]
  · intro hnone
    simp [get_auth_headers, hnone, dictLookup]

/-- Witness for C8: a PAT configuration yields a Bearer header; a
username/token configuration yields a Basic header whose blob is the
base64 of `user:tok`, namely `dXNlcjp0b2s=`. -/
theorem c8_auth_headers_witness :
    dictLookup (get_auth_headers
        ⟨"https://jira.example.com", "user", "tok", 30, true, 3, some "pat7"⟩)
        "Authorization" = some ("Bearer " ++ "pat7")
  ∧ dictLookup (get_auth_headers
        ⟨"https://x.atlassian.net", "user", "tok", 30, true, 3, none⟩)
        "Authorization" =
      some ("Basic " ++ base64encode (utf8Encode ("user" ++ ":" ++ "tok")))
  ∧ base64encode (utf8Encode ("user" ++ ":" ++ "tok")) = "dXNlcjp0b2s=" := by
  refine ⟨?_, ?_, by decide⟩
  · exact (c8_auth_headers
      ⟨"https://jira.example.com", "user", "tok", 30, true, 3, some "pat7"⟩).1
      "pat7" rfl
  · exact (c8_auth_headers
      ⟨"https://x.atlassian.net", "user", "tok", 30, true, 3, none⟩).2 rfl

/-- C9: when a file payload is present, the outgoing headers are exactly
the client's stored headers with the `Content-Type` entry removed, and
the stored header mapping itself is left unchanged by the request — the
source builds a fresh filtered dict and never reassigns `self.headers`,
so one AuthHeaders value serves the client for its whole lifetime. -/
theorem c9_file_upload_headers (self_headers : List (String × String))
    (params : Option PyDict) (json_data : Option PyDict)
    (files : Option (List (String × FilePart)))
    (hfiles : pyTruthyOpt files = true) :
    (prepare_kwargs self_headers params json_data files).1.headers =
      some (self_headers.filter fun kv => kv.1 ≠ "Content-Type")
  ∧ (prepare_kwargs self_headers params json_data files).2 = self_headers := by
  constructor
  · by_cases hj : pyTruthyOpt json_data = true <;>
      simp [prepare_kwargs, hfiles, hj]
  · rfl

/-- Witness for C9: the auth headers of a concrete configuration, with a
file part attached — `Content-Type` is stripped from the outgoing
headers and the stored mapping is untouched. -/
theorem c9_file_upload_headers_witness :
    (prepare_kwargs
        (get_auth_headers
          ⟨"https://x.atlassian.net", "user", "tok", 30, true, 3, none⟩)
        none none (some [("file", ⟨"a.txt", "application/octet-stream"⟩)])).1.headers =
      some ((get_auth_headers
          ⟨"https://x.atlassian.net", "user", "tok", 30, true, 3, none⟩).filter
        fun kv => kv.1 ≠ "Content-Type")
  ∧ (prepare_kwargs
        (get_auth_headers
          ⟨"https://x.atlassian.net", "user", "tok", 30, true, 3, none⟩)
        none none (some [("file", ⟨"a.txt", "application/octet-stream"⟩)])).2 =
      get_auth_headers
        ⟨"https://x.atlassian.net", "user", "tok", 30, true, 3, none⟩ :=
  c9_file_upload_headers
    (get_auth_headers
      ⟨"https://x.atlassian.net", "user", "tok", 30, true, 3, none⟩)
    none none (some [("file", ⟨"a.txt", "application/octet-stream"⟩)])
    (by decide)

/-- C10: `add_attachment` treats only status 200 as success — for every
other response status (201 and the retryable 429 / ≥ 500 included) it
raises a plain `JiraAPIError` at once, having issued exactly one HTTP
request and slept no backoff delay. -/
theorem c10_add_attachment_only_200 (existing_files : List String)
    (key file_path : String) (r : Response)
    (hexists : file_path ∈ existing_files) (hne : r.status ≠ 200) :
    add_attachment existing_files key file_path r =
      ⟨.error (.api ⟨.generic,
         "Failed to upload attachment: " ++ toString r.status,
         some r.status, safe_json r⟩), 1, []⟩ := by
  simp [add_attachment, hexists, hne]

/-- Witness for C10: a 503 response to an upload of an existing file
yields an immediate generic error with one request and no delays. -/
theorem c10_add_attachment_only_200_witness :
    add_attachment ["/tmp/a.txt"] "PROJ-1" "/tmp/a.txt" ⟨503, "", none⟩ =
      ⟨.error (.api ⟨.generic,
         "Failed to upload attachment: " ++ toString 503,
         some 503, safe_json ⟨503, "", none⟩⟩), 1, []⟩ :=
  c10_add_attachment_only_200 ["/tmp/a.txt"] "PROJ-1" "/tmp/a.txt"
    ⟨503, "", none⟩ (by decide) (by decide)

end JiraMcp
